import Mathlib

/-!
Verification of the ESP32-S3-BOX-3 firmware of the `elisa` repository
(`firmware/main/elisa_config.c`, `elisa_face.c`, `elisa_api.c`,
`elisa_main.c`) against its natural-language specification.

The C modules keep their state in file-scope statics; here each module's
statics are gathered into a structure and every public function is a pure
state transformer.  External effects (the LVGL screen, the HTTP stack,
the SPIFFS file) enter as explicit parameters describing the outcome of
the corresponding call.
-/

namespace Elisa

/- ── elisa_config.h: face_state_t ─────────────────────────────────── -/

/-- The five face-animation states of `face_state_t` in `elisa_config.h`. -/
inductive face_state_t where
  | FACE_STATE_IDLE
  | FACE_STATE_LISTENING
  | FACE_STATE_THINKING
  | FACE_STATE_SPEAKING
  | FACE_STATE_ERROR
deriving DecidableEq

/- ── elisa_config.h: descriptor structures ────────────────────────── -/

/-- Model of `face_eyes_t`: eye configuration.  The C `char[16]` buffers are
modelled as strings; writes truncate exactly as `strncpy` does. -/
structure face_eyes_t where
  style : String
  size : String
  color : Nat
deriving DecidableEq

/-- Model of `face_mouth_t`: mouth configuration. -/
structure face_mouth_t where
  style : String
deriving DecidableEq

/-- Model of `face_descriptor_t`: complete face descriptor parsed from
`runtime_config.json`. -/
structure face_descriptor_t where
  base_shape : String
  eyes : face_eyes_t
  mouth : face_mouth_t
  expression : String
  face_color : Nat
  accent_color : Nat
deriving DecidableEq

/-- Model of `elisa_runtime_config_t`: runtime configuration loaded from SPIFFS.
Field order and buffer sizes follow `elisa_config.h`; the sizes matter
because `safe_strcpy` truncates to `size - 1` characters. -/
structure elisa_runtime_config_t where
  agent_id : String
  api_key : String
  runtime_url : String
  wifi_ssid : String
  wifi_password : String
  agent_name : String
  wake_word : String
  display_theme : String
deriving DecidableEq

/- ── elisa_face.c: module state ───────────────────────────────────── -/

/-- An LVGL object as configured by `elisa_face_init`: the style and
geometry properties that the init code sets on each created object. -/
structure lv_obj_t where
  width : Int
  height : Int
  align_x : Int
  align_y : Int
  bg_color : Nat
  radius : Int
  border_width : Int
deriving DecidableEq

/-- Model of `LV_RADIUS_CIRCLE` from LVGL v8 (`0x7FFF`). -/
def LV_RADIUS_CIRCLE : Int := 0x7FFF

/-- The file-scope statics of `elisa_face.c`.  `s_audio_level` is a C
float; its clamping logic only compares against 0.0f and 1.0f, which is
faithfully represented over `ℚ`.  `s_anim_timer` records whether the
LVGL animation timer is live; the `lv_obj_t *` statics are `Option`s
(`none` = `NULL`). -/
structure FaceModule where
  s_desc : face_descriptor_t
  s_state : face_state_t
  s_audio_level : ℚ
  s_initialized : Bool
  s_face_bg : Option lv_obj_t
  s_eye_left : Option lv_obj_t
  s_eye_right : Option lv_obj_t
  s_mouth : Option lv_obj_t
  s_anim_timer : Bool
deriving DecidableEq

/-- Eye radius constants from `elisa_face.c`. -/
def EYE_SIZE_SMALL : Int := 8
def EYE_SIZE_MEDIUM : Int := 12
def EYE_SIZE_LARGE : Int := 16
def EYE_SPACING : Int := 35

/-- Model of `get_eye_radius`: map the eye-size string to a radius in pixels;
anything other than "small"/"large" yields the medium radius. -/
def get_eye_radius (size_str : String) : Int :=
  if size_str = "small" then EYE_SIZE_SMALL
  else if size_str = "large" then EYE_SIZE_LARGE
  else EYE_SIZE_MEDIUM

/-- The default descriptor written by `elisa_face_init` when `desc` is
`NULL` ("Defaults matching DEFAULT_FACE from display.ts"). -/
def default_face : face_descriptor_t :=
  { base_shape := "round"
    eyes := { style := "circles", size := "medium", color := 0x4361ee }
    mouth := { style := "smile" }
    expression := "happy"
    face_color := 0xf0f0f0
    accent_color := 0xffb3ba }

/-- Model of `elisa_face_init(desc)`.  `scr_available` is the outcome of
`lv_scr_act()` (`false` = `NULL`, the only failure branch).  Note the
C code copies `desc` (or writes the defaults) into `s_desc` *before*
the screen check, so `s_desc` is updated even on failure. -/
def elisa_face_init (desc : Option face_descriptor_t) (scr_available : Bool)
    (m : FaceModule) : Int × FaceModule :=
  let m := { m with s_desc := match desc with
                              | some d => d
                              | none => default_face }
  if scr_available = false then
    (-1, m)
  else
    let eye_r : Int := get_eye_radius m.s_desc.eyes.size
    let face_bg : lv_obj_t :=
      if m.s_desc.base_shape = "round" then
        { width := 160, height := 160, align_x := 0, align_y := -20,
          bg_color := m.s_desc.face_color, radius := LV_RADIUS_CIRCLE,
          border_width := 0 }
      else if m.s_desc.base_shape = "square" then
        { width := 160, height := 160, align_x := 0, align_y := -20,
          bg_color := m.s_desc.face_color, radius := 16, border_width := 0 }
      else
        { width := 140, height := 170, align_x := 0, align_y := -20,
          bg_color := m.s_desc.face_color, radius := LV_RADIUS_CIRCLE,
          border_width := 0 }
    let eye_left : lv_obj_t :=
      { width := eye_r * 2, height := eye_r * 2,
        align_x := -EYE_SPACING, align_y := -15,
        bg_color := m.s_desc.eyes.color, radius := LV_RADIUS_CIRCLE,
        border_width := 0 }
    let eye_right : lv_obj_t :=
      { width := eye_r * 2, height := eye_r * 2,
        align_x := EYE_SPACING, align_y := -15,
        bg_color := m.s_desc.eyes.color, radius := LV_RADIUS_CIRCLE,
        border_width := 0 }
    let mouth : lv_obj_t :=
      { width := 40, height := 4, align_x := 0, align_y := 25,
        bg_color := m.s_desc.eyes.color, radius := 2, border_width := 0 }
    (0, { m with
            s_face_bg := some face_bg
            s_eye_left := some eye_left
            s_eye_right := some eye_right
            s_mouth := some mouth
            s_anim_timer := true
            s_state := .FACE_STATE_IDLE
            s_initialized := true })

/-- Model of `elisa_face_set_state`: silently ignored when the renderer is not
initialized, otherwise unconditionally stores the requested state. -/
def elisa_face_set_state (state : face_state_t) (m : FaceModule) : FaceModule :=
  if m.s_initialized = false then m
  else { m with s_state := state }

/-- Model of `elisa_face_get_state`. -/
def elisa_face_get_state (m : FaceModule) : face_state_t :=
  m.s_state

/-- Model of `elisa_face_set_audio_level`: clamp to 0.0 - 1.0 then store. -/
def elisa_face_set_audio_level (level : ℚ) (m : FaceModule) : FaceModule :=
  let level := if level < 0 then 0 else level
  let level := if level > 1 then 1 else level
  { m with s_audio_level := level }

/-- Model of `elisa_face_cleanup`: delete the animation timer if live, mark the
module uninitialized; LVGL objects are left to screen deletion. -/
def elisa_face_cleanup (m : FaceModule) : FaceModule :=
  let m := if m.s_anim_timer = true then { m with s_anim_timer := false } else m
  { m with s_initialized := false }

/-- The file-scope statics of `elisa_face.c` at program start. -/
def faceModuleBoot : FaceModule :=
  { s_desc := { base_shape := "", eyes := { style := "", size := "", color := 0 },
                mouth := { style := "" }, expression := "",
                face_color := 0, accent_color := 0 }
    s_state := .FACE_STATE_IDLE
    s_audio_level := 0
    s_initialized := false
    s_face_bg := none
    s_eye_left := none
    s_eye_right := none
    s_mouth := none
    s_anim_timer := false }

/-- A sequence of `elisa_face_set_state` calls, applied in order. -/
def run_set_states (m : FaceModule) (reqs : List face_state_t) : FaceModule :=
  reqs.foldl (fun m s => elisa_face_set_state s m) m

/- ── cJSON values, as used by elisa_config.c ──────────────────────── -/

/-- A parsed cJSON tree.  Object members keep insertion order;
`cJSON_GetObjectItemCaseSensitive` returns the first member with an
exactly matching key. -/
inductive Json where
  | jstr (s : String)
  | jnum (n : Int)
  | jbool (b : Bool)
  | jnull
  | jobj (members : List (String × Json))
  | jarr (elems : List Json)

/-- Model of `cJSON_IsObject`. -/
def cJSON_IsObject : Json → Bool
  | .jobj _ => true
  | _ => false

/-- Model of `cJSON_IsString`. -/
def cJSON_IsString : Json → Bool
  | .jstr _ => true
  | _ => false

/-- Model of `cJSON_GetObjectItemCaseSensitive`: first member with the given key;
`none` models a `NULL` item pointer (also returned when the value is not
an object). -/
def cJSON_GetObjectItemCaseSensitive (j : Json) (key : String) : Option Json :=
  match j with
  | .jobj members => members.lookup key
  | _ => none

/- ── elisa_config.c ───────────────────────────────────────────────── -/

/-- Hex-digit test matching `strtol`'s base-16 digit set. -/
def is_hex_digit (c : Char) : Bool :=
  decide (('0' ≤ c ∧ c ≤ '9') ∨ ('a' ≤ c ∧ c ≤ 'f') ∨ ('A' ≤ c ∧ c ≤ 'F'))

/-- Numeric value of a hex digit. -/
def hex_digit_val (c : Char) : Nat :=
  if '0' ≤ c ∧ c ≤ '9' then c.toNat - '0'.toNat
  else if 'a' ≤ c ∧ c ≤ 'f' then c.toNat - 'a'.toNat + 10
  else c.toNat - 'A'.toNat + 10

/-- Greedy hex-digit accumulation of `strtol`: consume digits while they
are valid, stop at the first invalid character. -/
def strtol_digits : List Char → Nat → Nat
  | [], acc => acc
  | c :: cs, acc =>
      if is_hex_digit c then strtol_digits cs (acc * 16 + hex_digit_val c)
      else acc

/-- Model of `isspace` characters skipped by `strtol`. -/
def c_isspace (c : Char) : Bool :=
  decide (c = ' ' ∨ c = '\t' ∨ c = '\n' ∨ c = '\x0b' ∨ c = '\x0c' ∨ c = '\r')

/-- Model of `strtol(s, NULL, 16)`: skip leading whitespace, read an optional
sign, an optional `0x`/`0X`, then hex digits greedily.  Inputs
here come from a 6-character tail, so the `long` overflow clamp of
`strtol` is unreachable and not modelled. -/
def strtol16 (s : String) : Int :=
  let cs := (s.toList).dropWhile c_isspace
  let signed : Bool × List Char :=
    match cs with
    | '-' :: rest => (true, rest)
    | '+' :: rest => (false, rest)
    | rest => (false, rest)
  let digits : List Char :=
    match signed.2 with
    | '0' :: 'x' :: rest => if rest.any is_hex_digit then rest else signed.2
    | '0' :: 'X' :: rest => if rest.any is_hex_digit then rest else signed.2
    | rest => rest
  let mag : Nat := strtol_digits digits 0
  if signed.1 then -(mag : Int) else (mag : Int)

/-- Model of `parse_hex_color`: parse `#RRGGBB` into `0x00RRGGBB`; returns 0 for
`NULL` input, a missing leading `#`, or any length other than 7.  The
value is stored in a `uint32_t`, hence the final reduction mod 2^32. -/
def parse_hex_color (hex_str : Option String) : Nat :=
  match hex_str with
  | none => 0
  | some s =>
      if s.toList.head? ≠ some '#' ∨ s.length ≠ 7 then 0
      else (Int.emod (strtol16 (s.drop 1)) (2 ^ 32)).toNat

/-- Model of `strncpy(dest, src, dest_size - 1)` followed by
`dest[dest_size - 1] = 0` on a `char[dest_size]` buffer: the stored
string is the first `dest_size - 1` characters of the source. -/
def strncpy_trunc (dest_size : Nat) (src : String) : String :=
  String.mk (src.toList.take (dest_size - 1))

/-- Model of `safe_strcpy(dest, dest_size, json, key, fallback)`: copy the string
member `key` of `json` (truncated to `dest_size - 1` characters), else
the fallback (likewise truncated), else the empty string. -/
def safe_strcpy (dest_size : Nat) (json : Json) (key : String)
    (fallback : Option String) : String :=
  match cJSON_GetObjectItemCaseSensitive json key with
  | some (Json.jstr s) => strncpy_trunc dest_size s
  | _ =>
      match fallback with
      | some fb => strncpy_trunc dest_size fb
      | none => ""

/-- The file-scope statics of `elisa_config.c`. -/
structure ConfigModule where
  s_config : elisa_runtime_config_t
  s_face : face_descriptor_t
  s_config_loaded : Bool
  s_face_loaded : Bool
deriving DecidableEq

/-- Model of `parse_face_descriptor(face_json)`: `none` models a `NULL` pointer.
When the argument is `NULL` or not an object the default face is
written; otherwise each section updates `s_face` only when present (a
missing `eyes`/`mouth`/`colors` object leaves that part of the static
struct untouched). -/
def parse_face_descriptor (face_json : Option Json) (m : ConfigModule) :
    ConfigModule :=
  match face_json with
  | none => { m with s_face := default_face, s_face_loaded := true }
  | some j =>
      if cJSON_IsObject j = false then
        { m with s_face := default_face, s_face_loaded := true }
      else
        let base_shape := safe_strcpy 16 j "base_shape" (some "round")
        let eyes : face_eyes_t :=
          match cJSON_GetObjectItemCaseSensitive j "eyes" with
          | some e =>
              if cJSON_IsObject e then
                { style := safe_strcpy 16 e "style" (some "circles")
                  size := safe_strcpy 16 e "size" (some "medium")
                  color :=
                    match cJSON_GetObjectItemCaseSensitive e "color" with
                    | some (Json.jstr s) => parse_hex_color (some s)
                    | _ => 0x4361ee }
              else m.s_face.eyes
          | none => m.s_face.eyes
        let mouth : face_mouth_t :=
          match cJSON_GetObjectItemCaseSensitive j "mouth" with
          | some mo =>
              if cJSON_IsObject mo then
                { style := safe_strcpy 16 mo "style" (some "smile") }
              else m.s_face.mouth
          | none => m.s_face.mouth
        let expression := safe_strcpy 16 j "expression" (some "happy")
        let colors :=
          match cJSON_GetObjectItemCaseSensitive j "colors" with
          | some co =>
              if cJSON_IsObject co then
                let fc :=
                  match cJSON_GetObjectItemCaseSensitive co "face" with
                  | some (Json.jstr s) => parse_hex_color (some s)
                  | _ => 0xf0f0f0
                let ac :=
                  match cJSON_GetObjectItemCaseSensitive co "accent" with
                  | some (Json.jstr s) => parse_hex_color (some s)
                  | _ => 0xffb3ba
                (fc, ac)
              else (m.s_face.face_color, m.s_face.accent_color)
          | none => (m.s_face.face_color, m.s_face.accent_color)
        { m with
            s_face := { base_shape := base_shape, eyes := eyes, mouth := mouth,
                        expression := expression, face_color := colors.1,
                        accent_color := colors.2 }
            s_face_loaded := true }

/-- Model of `elisa_load_config()`.  The outcome of reading and cJSON-parsing
`/spiffs/runtime_config.json` enters as `file : Option Json`; `none`
covers a missing file, an allocation failure, or a JSON parse error —
every one of those paths returns -1 before touching `s_config`.  On a
parsed root the fields are copied into `s_config` *before* the
required-field validation, so a validation failure leaves `s_config`
mutated but `s_config_loaded` false. -/
def elisa_load_config (file : Option Json) (m : ConfigModule) :
    Int × ConfigModule :=
  match file with
  | none => (-1, m)
  | some root =>
      let cfg : elisa_runtime_config_t :=
        { agent_id := safe_strcpy 64 root "agent_id" none
          api_key := safe_strcpy 128 root "api_key" none
          runtime_url := safe_strcpy 256 root "runtime_url" none
          wifi_ssid := safe_strcpy 64 root "wifi_ssid" none
          wifi_password := safe_strcpy 64 root "wifi_password" none
          agent_name := safe_strcpy 64 root "agent_name" (some "Elisa Agent")
          wake_word := safe_strcpy 64 root "wake_word" (some "Hi Elisa")
          display_theme := safe_strcpy 32 root "display_theme" (some "default") }
      let m := { m with s_config := cfg }
      if cfg.agent_id.length = 0 ∨ cfg.api_key.length = 0 ∨
          cfg.runtime_url.length = 0 then
        (-1, m)
      else
        let m := parse_face_descriptor
          (cJSON_GetObjectItemCaseSensitive root "face_descriptor") m
        (0, { m with s_config_loaded := true })

/-- Model of `elisa_get_config`: the loaded config, or `NULL`. -/
def elisa_get_config (m : ConfigModule) : Option elisa_runtime_config_t :=
  if m.s_config_loaded then some m.s_config else none

/-- Model of `elisa_get_face_descriptor`: the parsed face, or `NULL`. -/
def elisa_get_face_descriptor (m : ConfigModule) : Option face_descriptor_t :=
  if m.s_face_loaded then some m.s_face else none

/-- The file-scope statics of `elisa_config.c` at program start
(zero-initialized). -/
def configModuleBoot : ConfigModule :=
  { s_config := { agent_id := "", api_key := "", runtime_url := "",
                  wifi_ssid := "", wifi_password := "", agent_name := "",
                  wake_word := "", display_theme := "" }
    s_face := { base_shape := "", eyes := { style := "", size := "", color := 0 },
                mouth := { style := "" }, expression := "",
                face_color := 0, accent_color := 0 }
    s_config_loaded := false
    s_face_loaded := false }

/-- A sequence of `elisa_load_config` calls; returns the final statics
and the list of return codes, in call order. -/
def run_loads (m : ConfigModule) : List (Option Json) →
    ConfigModule × List Int
  | [] => (m, [])
  | f :: fs =>
      let r := elisa_load_config f m
      let rest := run_loads r.2 fs
      (rest.1, r.1 :: rest.2)

/- ── elisa_api.c ──────────────────────────────────────────────────── -/

/-- Model of `elisa_turn_response_t`: `text` and `audio_data` are malloc'd
pointers (`none` = `NULL`); bytes are modelled as `List Nat`. -/
structure elisa_turn_response_t where
  text : Option String
  audio_data : Option (List Nat)
  audio_len : Nat
  status_code : Int
deriving DecidableEq

/-- The `memset(response, 0, sizeof(*response))` value. -/
def zeroed_response : elisa_turn_response_t :=
  { text := none, audio_data := none, audio_len := 0, status_code := 0 }

/-- The file-scope statics of `elisa_api.c`. -/
structure ApiModule where
  s_runtime_url : String
  s_api_key : String
  s_agent_id : String
  s_initialized : Bool
deriving DecidableEq

/-- Model of `elisa_api_init(config)`: copy credentials (with `strncpy`
truncation), strip one trailing slash from the URL, mark initialized.
`config = none` models a `NULL` pointer. -/
def elisa_api_init (config : Option elisa_runtime_config_t) (m : ApiModule) :
    Int × ApiModule :=
  match config with
  | none => (-1, m)
  | some cfg =>
      let url := (cfg.runtime_url.toList.take 255)
      let url := if url.length > 0 ∧ url.getLast? = some '/' then
                   url.take (url.length - 1)
                 else url
      (0, { m with s_runtime_url := String.mk url
                   s_api_key := strncpy_trunc 128 cfg.api_key
                   s_agent_id := strncpy_trunc 64 cfg.agent_id
                   s_initialized := true })

/-- Outcome of one `esp_http_client` exchange, as observed by the
caller of `esp_http_client_init` / `esp_http_client_perform`:
client-handle allocation failure, a transport error from `perform`
(network error / timeout), or a completed exchange carrying the final
status code and the response body the server sent. -/
inductive http_exchange where
  | init_failed
  | perform_error
  | completed (status : Int) (body : String)

/-- Model of `elisa_api_audio_turn(audio_data, audio_len, response)`.
`resp` is the caller's struct (returned untouched on the early-exit
paths that precede the `memset`); `hx` is the outcome of the HTTP
exchange.  Note that after a completed exchange only `status_code` is
stored: the body is never read (the body-parsing block in the source is
a TODO comment), so `text`/`audio_data` stay at their zeroed values. -/
def elisa_api_audio_turn (m : ApiModule) (audio_data : List Nat)
    (audio_len : Nat) (resp : Option elisa_turn_response_t)
    (hx : http_exchange) : Int × Option elisa_turn_response_t :=
  if m.s_initialized = false ∨ resp = none then (-1, resp)
  else
    let r := zeroed_response
    match hx with
    | .init_failed => (-1, some r)
    | .perform_error => (-1, some r)
    | .completed status _body =>
        let r := { r with status_code := status }
        ((if status = 200 then 0 else -1), some r)

/-- Model of `elisa_heartbeat_t`. -/
structure elisa_heartbeat_t where
  healthy : Bool
  status_code : Int
deriving DecidableEq

/-- Model of `elisa_api_heartbeat(result)`. -/
def elisa_api_heartbeat (m : ApiModule) (result : Option elisa_heartbeat_t)
    (hx : http_exchange) : Int × Option elisa_heartbeat_t :=
  if m.s_initialized = false ∨ result = none then (-1, result)
  else
    let r : elisa_heartbeat_t := { healthy := false, status_code := 0 }
    match hx with
    | .init_failed => (-1, some r)
    | .perform_error => (-1, some r)
    | .completed status _body =>
        (0, some { r with status_code := status, healthy := status = 200 })

/-- Model of `elisa_api_free_response`: release and `NULL` the malloc'd fields. -/
def elisa_api_free_response (resp : Option elisa_turn_response_t) :
    Option elisa_turn_response_t :=
  match resp with
  | none => none
  | some r => some { r with text := none, audio_data := none, audio_len := 0 }

/- ── elisa_main.c: conversation_loop ──────────────────────────────── -/

/-- Per-iteration inputs that `conversation_loop`'s documentation says
drive a turn: the wake event, the captured utterance, and the outcome of
the `elisa_api_audio_turn` exchange. -/
structure turn_inputs where
  wake_event : Bool
  captured_audio : List Nat
  exchange : http_exchange

/-- The body of the `while (1)` loop of `conversation_loop` in
`elisa_main.c`, as compiled: every step of the documented turn sequence
(wake wait, `elisa_face_set_state` calls, `elisa_api_audio_turn`,
playback, buffer release) sits inside a TODO comment, and the only
statement is `vTaskDelay(pdMS_TO_TICKS(100))`.  The iteration therefore
leaves the face module unchanged and performs no `set_state` call; the
returned list records the `elisa_face_set_state` calls it issued. -/
def conversation_loop_body (inputs : turn_inputs) (face : FaceModule) :
    FaceModule × List face_state_t :=
  (face, [])

/- ── Shared concrete instances and helper lemmas ──────────────────── -/

/-- The face module right after a successful `elisa_face_init(NULL)`. -/
def faceIdleReady : FaceModule := (elisa_face_init none true faceModuleBoot).2

/-- An initialized API-client module. -/
def apiModuleReady : ApiModule :=
  { s_runtime_url := "http://runtime.local", s_api_key := "eart_k",
    s_agent_id := "agent-1", s_initialized := true }

/-- A config JSON whose `api_key` and `runtime_url` are missing while
`agent_id` is present: required-field validation fails after `agent_id`
was already extracted into the static config. -/
def partialRoot : Json := Json.jobj [("agent_id", Json.jstr "agent-1")]

theorem strncpy_trunc_length (n : Nat) (s : String) :
    (strncpy_trunc n s).length = min (n - 1) s.length := by
  show (s.toList.take (n - 1)).length = _
  rw [List.length_take]; rfl

theorem strncpy_trunc_empty_iff (n : Nat) (h : 2 ≤ n) (s : String) :
    ((strncpy_trunc n s).length = 0 ↔ s.length = 0) := by
  rw [strncpy_trunc_length]
  omega

theorem set_state_keeps_initialized (s : face_state_t) (m : FaceModule) :
    (elisa_face_set_state s m).s_initialized = m.s_initialized := by
  unfold elisa_face_set_state
  split <;> rfl

theorem set_state_stores (s : face_state_t) (m : FaceModule)
    (h : m.s_initialized = true) :
    (elisa_face_set_state s m).s_state = s := by
  unfold elisa_face_set_state
  rw [h]
  simp

theorem run_set_states_cons (m : FaceModule) (a : face_state_t)
    (l : List face_state_t) :
    run_set_states m (a :: l) = run_set_states (elisa_face_set_state a m) l := rfl

theorem run_set_states_keeps_initialized (l : List face_state_t)
    (m : FaceModule) :
    (run_set_states m l).s_initialized = m.s_initialized := by
  induction l generalizing m with
  | nil => rfl
  | cons a t ih => rw [run_set_states_cons, ih, set_state_keeps_initialized]

/- ── Claims ───────────────────────────────────────────────────────── -/

/-- C1: for every sequence of `elisa_face_set_state` calls on an
initialized face module, `elisa_face_get_state()` after each call
returns exactly the state that call requested — no transition is
rejected, re-entry included (the final call's request `s` may repeat any
element of the preceding calls `reqs`). -/
theorem face_set_state_total (m : FaceModule) (reqs : List face_state_t)
    (s : face_state_t) (h : m.s_initialized = true) :
    elisa_face_get_state (run_set_states m (reqs ++ [s])) = s := by
  induction reqs generalizing m with
  | nil =>
      show (elisa_face_set_state s m).s_state = s
      exact set_state_stores s m h
  | cons a t ih =>
      rw [List.cons_append, run_set_states_cons]
      exact ih _ ((set_state_keeps_initialized a m).trans h)

/-- C1 witness: after init, requesting Listening twice in a row (a
re-entrant transition) leaves the current state at Listening. -/
theorem face_set_state_total_witness :
    elisa_face_get_state
      (run_set_states faceIdleReady
        ([.FACE_STATE_LISTENING] ++ [.FACE_STATE_LISTENING])) =
      .FACE_STATE_LISTENING :=
  face_set_state_total faceIdleReady [.FACE_STATE_LISTENING]
    .FACE_STATE_LISTENING (by rfl)

/-- Clamp order in the source (low bound first, then high bound) agrees
with `max 0 (min 1 level)`. -/
theorem clamp_low_then_high (level : ℚ) :
    (if (if level < 0 then (0 : ℚ) else level) > 1 then (1 : ℚ)
     else if level < 0 then (0 : ℚ) else level) = max 0 (min 1 level) := by
  rcases lt_or_le level 0 with h0 | h0
  · rw [if_pos h0, if_neg (by norm_num),
        min_eq_right (by linarith), max_eq_left (by linarith)]
  · rcases le_or_lt level 1 with h1 | h1
    · rw [if_neg (not_lt.mpr h0), if_neg (not_lt.mpr h1),
          min_eq_right h1, max_eq_right h0]
    · rw [if_neg (not_lt.mpr h0), if_pos h1, min_eq_left (le_of_lt h1)]
      norm_num

/-- C4: `elisa_face_set_audio_level` stores the input clamped to
[0.0, 1.0]; in particular -0.3 stores 0.0 and 1.7 stores 1.0. -/
theorem face_set_audio_level_clamps (level : ℚ) (m : FaceModule) :
    (elisa_face_set_audio_level level m).s_audio_level
        = max 0 (min 1 level) ∧
    0 ≤ (elisa_face_set_audio_level level m).s_audio_level ∧
    (elisa_face_set_audio_level level m).s_audio_level ≤ 1 ∧
    (elisa_face_set_audio_level (-3/10) m).s_audio_level = 0 ∧
    (elisa_face_set_audio_level (17/10) m).s_audio_level = 1 := by
  have key : ∀ l : ℚ,
      (elisa_face_set_audio_level l m).s_audio_level = max 0 (min 1 l) := by
    intro l
    show (if (if l < 0 then (0 : ℚ) else l) > 1 then (1 : ℚ)
          else if l < 0 then (0 : ℚ) else l) = _
    exact clamp_low_then_high l
  refine ⟨key level, ?_, ?_, ?_, ?_⟩
  · rw [key level]; exact le_max_left 0 _
  · rw [key level]
    exact max_le (by norm_num) (min_le_left 1 level)
  · rw [key (-3/10)]; norm_num
  · rw [key (17/10)]
    rw [min_eq_left (by norm_num), max_eq_right (by norm_num)]

/-- C8: `elisa_face_cleanup` is idempotent — any number of additional
calls after the first leave the module in the same torn-down state
(timer deleted, `s_initialized` cleared); the function is total, so it
never fails. -/
theorem face_cleanup_idempotent (m : FaceModule) (n : Nat) :
    elisa_face_cleanup^[n + 1] m = elisa_face_cleanup m := by
  induction n with
  | zero => rfl
  | succ k ih =>
      rw [Function.iterate_succ_apply', ih]
      unfold elisa_face_cleanup
      rcases m with ⟨d, st, al, ini, bg, el, er, mo, tim⟩
      cases tim <;> simp

/-- C5: `elisa_face_init` returns -1 exactly when the presentation
surface (`lv_scr_act()`) cannot be acquired; otherwise it returns 0,
leaves the engine initialized in state Idle, and has built the static
geometry — background shape, two eyes, mouth — from the supplied
descriptor (or the default one). -/
theorem face_init_succeeds_iff_surface (desc : Option face_descriptor_t)
    (scr_available : Bool) (m : FaceModule) :
    ((elisa_face_init desc scr_available m).1 = -1 ↔ scr_available = false) ∧
    (scr_available = true →
      (elisa_face_init desc scr_available m).1 = 0 ∧
      (elisa_face_init desc scr_available m).2.s_state = .FACE_STATE_IDLE ∧
      (elisa_face_init desc scr_available m).2.s_initialized = true ∧
      (elisa_face_init desc scr_available m).2.s_desc
          = desc.getD default_face ∧
      ∃ bg el er mo : lv_obj_t,
        (elisa_face_init desc scr_available m).2.s_face_bg = some bg ∧
        (elisa_face_init desc scr_available m).2.s_eye_left = some el ∧
        (elisa_face_init desc scr_available m).2.s_eye_right = some er ∧
        (elisa_face_init desc scr_available m).2.s_mouth = some mo ∧
        bg.bg_color = (desc.getD default_face).face_color ∧
        el.bg_color = (desc.getD default_face).eyes.color ∧
        er.bg_color = (desc.getD default_face).eyes.color ∧
        el.width = get_eye_radius (desc.getD default_face).eyes.size * 2 ∧
        er.width = get_eye_radius (desc.getD default_face).eyes.size * 2 ∧
        mo.bg_color = (desc.getD default_face).eyes.color) := by
  cases scr_available with
  | false =>
      constructor
      · cases desc <;> simp [elisa_face_init]
      · intro h; exact absurd h (by simp)
  | true =>
      constructor
      · cases desc <;> simp [elisa_face_init]
      · intro _
        cases desc with
        | none =>
            refine ⟨rfl, rfl, rfl, rfl, ?_⟩
            exact ⟨_, _, _, _, rfl, rfl, rfl, rfl, rfl, rfl, rfl, rfl, rfl, rfl⟩
        | some d =>
            refine ⟨rfl, rfl, rfl, rfl, ?_⟩
            refine ⟨_, _, _, _, rfl, rfl, rfl, rfl, ?_, rfl, rfl, rfl, rfl, rfl⟩
            show lv_obj_t.bg_color (if d.base_shape = "round" then _
              else if d.base_shape = "square" then _ else _) = _
            split
            · rfl
            · split <;> rfl

/-- C5 witness: with the surface available and a `NULL` descriptor,
`elisa_face_init` succeeds and the engine's state is Idle. -/
theorem face_init_succeeds_iff_surface_witness :
    (elisa_face_init none true faceModuleBoot).1 = 0 ∧
    (elisa_face_init none true faceModuleBoot).2.s_state
        = .FACE_STATE_IDLE :=
  ⟨((face_init_succeeds_iff_surface none true faceModuleBoot).2 rfl).1,
   ((face_init_succeeds_iff_surface none true faceModuleBoot).2 rfl).2.1⟩

/-- C7: when no descriptor is supplied — `NULL` to `elisa_face_init`, or
no `face_descriptor` object in the config — the one fixed default
appearance is used: round shape, circles eyes of medium size colored
0x4361ee, smile mouth, happy expression, face color 0xf0f0f0, accent
color 0xffb3ba. -/
theorem missing_descriptor_uses_default_face (m : FaceModule)
    (scr_available : Bool) (mc : ConfigModule) :
    (elisa_face_init none scr_available m).2.s_desc = default_face ∧
    (parse_face_descriptor none mc).s_face = default_face ∧
    elisa_get_face_descriptor (parse_face_descriptor none mc)
        = some default_face ∧
    default_face.base_shape = "round" ∧
    default_face.eyes.style = "circles" ∧
    default_face.eyes.size = "medium" ∧
    default_face.eyes.color = 0x4361ee ∧
    default_face.mouth.style = "smile" ∧
    default_face.expression = "happy" ∧
    default_face.face_color = 0xf0f0f0 ∧
    default_face.accent_color = 0xffb3ba := by
  refine ⟨?_, rfl, rfl, rfl, rfl, rfl, rfl, rfl, rfl, rfl, rfl⟩
  cases scr_available <;> rfl

/-- Whether `root` has a string member `key` whose value is non-empty —
the "present and non-empty" notion of the required-field check. -/
def json_field_nonempty (root : Json) (key : String) : Bool :=
  match cJSON_GetObjectItemCaseSensitive root key with
  | some (Json.jstr s) => decide (s.length ≠ 0)
  | _ => false

theorem safe_strcpy_required_empty_iff (dsz : Nat) (h : 2 ≤ dsz)
    (root : Json) (key : String) :
    ((safe_strcpy dsz root key none).length = 0 ↔
      json_field_nonempty root key = false) := by
  unfold safe_strcpy json_field_nonempty
  cases cJSON_GetObjectItemCaseSensitive root key with
  | none => simp
  | some j => cases j <;> simp [strncpy_trunc_empty_iff _ h]

/-- C6: with a parsed config JSON, `elisa_load_config` returns success
(0) exactly when `agent_id`, `api_key` and `runtime_url` are all present
as non-empty strings; it returns -1 in every other case, in particular
whenever one of the three is absent or empty, and when the file cannot
be read or parsed at all. -/
theorem load_config_requires_fields (root : Json) (m : ConfigModule) :
    ((elisa_load_config (some root) m).1 = 0 ↔
      json_field_nonempty root "agent_id" = true ∧
      json_field_nonempty root "api_key" = true ∧
      json_field_nonempty root "runtime_url" = true) ∧
    ((elisa_load_config (some root) m).1 = 0 ∨
      (elisa_load_config (some root) m).1 = -1) ∧
    (elisa_load_config none m).1 = -1 := by
  have eA := safe_strcpy_required_empty_iff 64 (by norm_num) root "agent_id"
  have eK := safe_strcpy_required_empty_iff 128 (by norm_num) root "api_key"
  have eU := safe_strcpy_required_empty_iff 256 (by norm_num) root "runtime_url"
  refine ⟨?_, ?_, rfl⟩ <;> simp only [elisa_load_config] <;> split
  · rename_i hc
    simp only [show ((-1 : Int), _).1 = -1 from rfl]
    constructor
    · intro h; exact absurd h (by norm_num)
    · rintro ⟨h1, h2, h3⟩
      rcases hc with hc | hc | hc
      · rw [eA.mp hc] at h1; exact absurd h1 (by simp)
      · rw [eK.mp hc] at h2; exact absurd h2 (by simp)
      · rw [eU.mp hc] at h3; exact absurd h3 (by simp)
  · rename_i hc
    push_neg at hc
    simp only [show ((0 : Int), _).1 = 0 from rfl, true_iff]
    refine ⟨?_, ?_, ?_⟩
    · cases hb : json_field_nonempty root "agent_id" with
      | false => exact absurd (eA.mpr hb) hc.1
      | true => rfl
    · cases hb : json_field_nonempty root "api_key" with
      | false => exact absurd (eK.mpr hb) hc.2.1
      | true => rfl
    · cases hb : json_field_nonempty root "runtime_url" with
      | false => exact absurd (eU.mpr hb) hc.2.2
      | true => rfl
  · right; rfl
  · left; rfl

theorem load_config_failure_keeps_flag (f : Option Json) (m : ConfigModule)
    (h : (elisa_load_config f m).1 ≠ 0) :
    (elisa_load_config f m).2.s_config_loaded = m.s_config_loaded := by
  cases f with
  | none => rfl
  | some root =>
      simp only [elisa_load_config] at h ⊢
      split
      · rfl
      · rename_i hc
        rw [if_neg hc] at h
        exact absurd rfl h

/-- C9: `elisa_get_config` returns `NULL` unless some prior
`elisa_load_config` call returned success — for any call sequence from
boot in which every load returned a non-zero code (including loads that
failed required-field validation after extracting some fields), the
getter yields `none`, so no partially-loaded configuration is
observable. -/
theorem get_config_requires_successful_load (files : List (Option Json))
    (h : ∀ r ∈ (run_loads configModuleBoot files).2, r ≠ 0) :
    elisa_get_config (run_loads configModuleBoot files).1 = none := by
  have gen : ∀ (fs : List (Option Json)) (m : ConfigModule),
      m.s_config_loaded = false →
      (∀ r ∈ (run_loads m fs).2, r ≠ 0) →
      (run_loads m fs).1.s_config_loaded = false := by
    intro fs
    induction fs with
    | nil => intro m hm _; exact hm
    | cons f t ih =>
        intro m hm hall
        have hmem : (elisa_load_config f m).1 ∈ (run_loads m (f :: t)).2 := by
          show _ ∈ (elisa_load_config f m).1 :: _
          exact List.mem_cons_self _ _
        have hr : (elisa_load_config f m).1 ≠ 0 := hall _ hmem
        have hkeep : (elisa_load_config f m).2.s_config_loaded = false :=
          (load_config_failure_keeps_flag f m hr).trans hm
        refine ih _ hkeep ?_
        intro r hrmem
        refine hall r ?_
        show r ∈ (elisa_load_config f m).1 :: _
        exact List.mem_cons_of_mem _ hrmem
  have hfin := gen files configModuleBoot rfl h
  simp [elisa_get_config, hfin]

/-- C9 witness: a single load whose JSON has `agent_id` but lacks
`api_key` and `runtime_url` fails validation after extracting
`agent_id`, and the getter still returns `none`. -/
theorem get_config_requires_successful_load_witness :
    elisa_get_config (run_loads configModuleBoot [some partialRoot]).1
        = none :=
  get_config_requires_successful_load [some partialRoot] (by decide)

/-- C10: a color string that is not exactly `#` followed by six
characters parses to color 0 (black) rather than an error, and a
malformed color inside the descriptor's `eyes` object is stored as 0
and observable through `elisa_get_face_descriptor`. -/
theorem malformed_hex_color_is_black (s : String) (m : ConfigModule)
    (h : s.toList.head? ≠ some '#' ∨ s.length ≠ 7) :
    parse_hex_color (some s) = 0 ∧
    parse_hex_color none = 0 ∧
    (∃ d : face_descriptor_t,
      elisa_get_face_descriptor
        (parse_face_descriptor
          (some (Json.jobj [("eyes", Json.jobj [("color", Json.jstr s)])]))
          m)
        = some d ∧ d.eyes.color = 0) := by
  have hp : parse_hex_color (some s) = 0 := by
    show (if s.toList.head? ≠ some '#' ∨ s.length ≠ 7 then 0
          else (Int.emod (strtol16 (s.drop 1)) (2 ^ 32)).toNat) = 0
    rw [if_pos h]
  refine ⟨hp, rfl, ⟨_, rfl, ?_⟩⟩
  show (parse_face_descriptor _ m).s_face.eyes.color = 0
  exact hp

/-- C10 witness: the six-character color string "4361ee" (missing the
leading `#`) parses to black, also through the descriptor. -/
theorem malformed_hex_color_is_black_witness :
    parse_hex_color (some "4361ee") = 0 ∧
    parse_hex_color none = 0 ∧
    (∃ d : face_descriptor_t,
      elisa_get_face_descriptor
        (parse_face_descriptor
          (some (Json.jobj
            [("eyes", Json.jobj [("color", Json.jstr "4361ee")])]))
          configModuleBoot)
        = some d ∧ d.eyes.color = 0) :=
  malformed_hex_color_is_black "4361ee" configModuleBoot (by decide)

/-- C2, evaluated at the failing input: with an initialized client and
an HTTP exchange completing with status 200 and a body carrying the
agent's text, audio and transcript, `elisa_api_audio_turn` does return
success — but the returned response carries no text and no audio bytes,
because the response body is never read (and `elisa_turn_response_t` has
no transcript field at all). -/
theorem audio_turn_success_returns_empty_payload :
    (elisa_api_audio_turn apiModuleReady [1, 2, 3] 3 (some zeroed_response)
        (.completed 200 "body-with-text-audio-and-transcript")).1 = 0 ∧
    (elisa_api_audio_turn apiModuleReady [1, 2, 3] 3 (some zeroed_response)
        (.completed 200 "body-with-text-audio-and-transcript")).2
      = some { text := none, audio_data := none, audio_len := 0,
               status_code := 200 } := by
  constructor <;> rfl

/-- A turn in which `audio_turn` would return status 200 with non-empty
audio — the scenario of the claimed Idle-Listening-Thinking-Speaking-
Idle sequence. -/
def successfulTurn : turn_inputs :=
  { wake_event := true, captured_audio := [0, 1, 2],
    exchange := .completed 200 "nonempty-mp3-audio" }

/-- C3, evaluated at the failing input: on a turn whose exchange
completes with status 200 and non-empty audio, the compiled
`conversation_loop` body issues no `elisa_face_set_state` call at all
and leaves the face module untouched (still Idle) — it does not drive
the face through Listening, Thinking, Speaking and back to Idle, and it
never allocates or releases any turn buffer. -/
theorem conversation_loop_emits_no_transitions :
    (conversation_loop_body successfulTurn faceIdleReady).2 = [] ∧
    (conversation_loop_body successfulTurn faceIdleReady).1 = faceIdleReady ∧
    faceIdleReady.s_state = .FACE_STATE_IDLE ∧
    (conversation_loop_body successfulTurn faceIdleReady).2 ≠
      [face_state_t.FACE_STATE_LISTENING, .FACE_STATE_THINKING,
       .FACE_STATE_SPEAKING, .FACE_STATE_IDLE] := by
  refine ⟨rfl, rfl, rfl, ?_⟩
  intro hcontra
  exact absurd hcontra (by simp [conversation_loop_body])

end Elisa
